import Mathlib

/-!
Shallow embedding of `convertaudio.py`, a folder-scanning batch audio
converter.  The script shells out to external tools (`file`, `opusdec`,
`oggdec`, `ffmpeg`, `lame`); we model the external world as an environment
an environment type Env that fixes the result of every tool invocation, the observable
behaviour of the program as a list of events (subprocess invocations, file removals,
copies, log lines, directory creation), and the filesystem as a partial map
from paths to file contents, updated by interpreting the event trace.
-/

/-- Result of a subprocess invocation: exit code plus captured output,
mirroring the Python call `subprocess.run(..., capture_output=True, text=True)`. -/
structure ToolResult where
  returncode : Int
  stdout : String
  stderr : String
deriving DecidableEq

/-- The external world: the behaviour of every command-line tool the script
invokes, and the contents the decoders/encoder write on success.  `fileType`
models `file -b <path>`; the `*Out` fields give the bytes an external tool
leaves at its output path when it exits 0 (the script never inspects them). -/
structure Env where
  fileType : String → ToolResult
  opusdec : String → String → ToolResult
  oggdec : String → String → ToolResult
  ffmpeg : String → String → ToolResult
  lame : String → String → ToolResult
  opusdecOut : String → String
  oggdecOut : String → String
  ffmpegOut : String → String
  lameOut : String → String

/-- Observable actions of the script, in program order: subprocess runs
(with the exit code the environment returned), `os.remove`, `shutil.copy`,
`print` log lines, and `os.makedirs`. -/
inductive Event where
  | runClassifier (input : String) (output : String)
  | runOpusdec (input : String) (temp : String) (rc : Int)
  | runOggdec (input : String) (temp : String) (rc : Int)
  | runFfmpeg (input : String) (temp : String) (rc : Int)
  | runLame (temp : String) (output : String) (rc : Int)
  | removeFile (path : String)
  | copyFile (src : String) (dst : String)
  | logMsg (msg : String)
  | mkdir (path : String)
deriving DecidableEq

/-- The filesystem: a partial map from absolute paths to file contents. -/
def FS := String → Option String

/-- Effect of one event on the filesystem.  A decoder that exits 0 writes
its output file; `lame` exiting 0 writes the MP3; `os.remove` deletes;
`shutil.copy` duplicates the source bytes at the destination; classifier
runs, logging and directory creation leave the file map unchanged. -/
def applyEvent (env : Env) (fs : FS) : Event → FS
  | Event.runClassifier _ _ => fs
  | Event.runOpusdec input temp rc =>
      if rc = 0 then fun p => if p = temp then some (env.opusdecOut input) else fs p else fs
  | Event.runOggdec input temp rc =>
      if rc = 0 then fun p => if p = temp then some (env.oggdecOut input) else fs p else fs
  | Event.runFfmpeg input temp rc =>
      if rc = 0 then fun p => if p = temp then some (env.ffmpegOut input) else fs p else fs
  | Event.runLame temp output rc =>
      if rc = 0 then fun p => if p = output then some (env.lameOut temp) else fs p else fs
  | Event.removeFile path => fun p => if p = path then none else fs p
  | Event.copyFile src dst => fun p => if p = dst then fs src else fs p
  | Event.logMsg _ => fs
  | Event.mkdir _ => fs

/-- Interpret a whole trace on an initial filesystem. -/
def runFS (env : Env) (fs : FS) (tr : List Event) : FS :=
  tr.foldl (applyEvent env) fs

/-- Model of the Python test `str.startswith(p)`, via structural search on the
underlying character lists. -/
def strStartsWith (s p : String) : Bool :=
  p.data.isPrefixOf s.data

/-- Index of the last occurrence of a dot in a character list, if any. -/
def lastDotIndex (l : List Char) : Option Nat :=
  match l.reverse.findIdx? (fun c => c == '.') with
  | none => none
  | some k => some (l.length - 1 - k)

/-- Model of `os.path.splitext` for a file name containing no path separator:
split at the last dot, except that a dot is not an extension separator
when only dots precede it (so `.bashrc` has no extension). -/
def splitext (s : String) : String × String :=
  match lastDotIndex s.data with
  | none => (s, "")
  | some d =>
      if (s.data.take d).any (fun c => c != '.') then
        (String.mk (s.data.take d), String.mk (s.data.drop d))
      else (s, "")

/-- Model of `os.path.join` for two POSIX path components. -/
def path_join (a b : String) : String :=
  if strStartsWith b "/" then b
  else if a = "" then b
  else if strStartsWith (String.mk a.data.reverse) "/" then a ++ b
  else a ++ "/" ++ b

/-- The encoder step `convert_to_mp3(temp_file, output_file)`: run
`lame -h -b 128 temp_file output_file`; on exit 0 delete the temp file and
log the output path, returning `true`; otherwise log the error and return
`false`.  Returns the event trace together with the boolean result. -/
def convert_to_mp3 (env : Env) (temp_file : String) (output_file : String) :
    List Event × Bool :=
  let result := env.lame temp_file output_file
  if result.returncode = 0 then
    ([Event.runLame temp_file output_file result.returncode,
      Event.removeFile temp_file,
      Event.logMsg ("Successfully saved " ++ output_file)], true)
  else
    ([Event.runLame temp_file output_file result.returncode,
      Event.logMsg ("Error while trying to encode " ++ temp_file ++ " to MP3: "
        ++ result.stdout ++ result.stderr)], false)

/-- The dispatcher `convert_audio(input_file, output_file)`: sniff the content type with
`file -b`, then dispatch on prefixes of the reported type string, in source
order: Opus-in-Ogg, Vorbis-in-Ogg, four MPEG-4/AAC signatures, MP3
passthrough copy, fallback skip. -/
def convert_audio (env : Env) (input_file : String) (output_file : String) :
    List Event :=
  let audio_type := (env.fileType input_file).stdout
  let temp_file := output_file ++ ".temp.wav"
  Event.runClassifier input_file audio_type ::
  (if strStartsWith audio_type "Ogg data, Opus audio" then
    let result := env.opusdec input_file temp_file
    Event.runOpusdec input_file temp_file result.returncode ::
    (if result.returncode = 0 then (convert_to_mp3 env temp_file output_file).1
     else [Event.logMsg ("Couldn\x27t decode OPUS audio of " ++ input_file ++ ": "
        ++ result.stdout ++ result.stderr)])
  else if strStartsWith audio_type "Ogg data, Vorbis audio" then
    let result := env.oggdec input_file temp_file
    Event.runOggdec input_file temp_file result.returncode ::
    (if result.returncode = 0 then (convert_to_mp3 env temp_file output_file).1
     else [Event.logMsg ("Couldn\x27t decode Ogg Vorbis audio of " ++ input_file ++ ": "
        ++ result.stdout ++ result.stderr)])
  else if strStartsWith audio_type "ISO Media, MPEG v4 system, 3GPP"
       || strStartsWith audio_type "MPEG ADTS, AAC"
       || strStartsWith audio_type "ISO Media, Apple iTunes ALAC/AAC-LC"
       || strStartsWith audio_type "ISO Media, MP4 v2" then
    let result := env.ffmpeg input_file temp_file
    Event.runFfmpeg input_file temp_file result.returncode ::
    (if result.returncode = 0 then (convert_to_mp3 env temp_file output_file).1
     else [Event.logMsg ("Couldn\x27t decode MP4 audio of " ++ input_file ++ ": "
        ++ result.stdout ++ result.stderr)])
  else if strStartsWith audio_type "MPEG ADTS, layer III" then
    [Event.logMsg (input_file ++
       " is already in MP3 format: No converting necessary, copying into output folder."),
     Event.copyFile input_file output_file]
  else
    [Event.logMsg ("Couldn\x27t identify audio type \x27" ++ audio_type ++ "\x27 of "
       ++ input_file ++ ", skipping")])

/-- The five mutually exclusive outcomes of the dispatch in
`convert_audio`. -/
inductive Branch where
  | opus
  | vorbis
  | mp4
  | mp3copy
  | skip
deriving DecidableEq

/-- The branch `convert_audio` selects for a given classifier output string:
the same if/elif chain as the source, returning which branch fires. -/
def selectBranch (audio_type : String) : Branch :=
  if strStartsWith audio_type "Ogg data, Opus audio" then Branch.opus
  else if strStartsWith audio_type "Ogg data, Vorbis audio" then Branch.vorbis
  else if strStartsWith audio_type "ISO Media, MPEG v4 system, 3GPP"
       || strStartsWith audio_type "MPEG ADTS, AAC"
       || strStartsWith audio_type "ISO Media, Apple iTunes ALAC/AAC-LC"
       || strStartsWith audio_type "ISO Media, MP4 v2" then Branch.mp4
  else if strStartsWith audio_type "MPEG ADTS, layer III" then Branch.mp3copy
  else Branch.skip

/-- A directory entry as seen by `os.scandir`: its name and whether it is a
regular file. -/
structure DirEntry where
  name : String
  isRegularFile : Bool
deriving DecidableEq

/-- The extension allow-list of the main loop. -/
def allowedExtensions : List String := [".ogg", ".m4a", ".opus", ".aac", ".mp4"]

/-- The body of the main loop for one directory entry: hidden entries
(leading dot) and non-regular files are passed over silently; entries whose
extension is outside the allow-list are logged as skipped; the rest are
handed to `convert_audio` with output path `mp3_folder/<base>.mp3`. -/
def processEntry (env : Env) (folder : String) (mp3_folder : String)
    (e : DirEntry) : List Event :=
  if (!strStartsWith e.name ".") && e.isRegularFile then
    let base_name := (splitext e.name).1
    let extension := (splitext e.name).2
    if allowedExtensions.contains extension then
      convert_audio env (path_join folder e.name)
        (path_join mp3_folder (base_name ++ ".mp3"))
    else [Event.logMsg ("Skipping " ++ e.name)]
  else []

/-- The `__main__` block after argument parsing: `folder` is the resolved
absolute input path, `isDir` tells whether a directory already exists
(`os.path.isdir`), and `entries` is the `os.scandir` listing.  Logs the
banner, creates `converted_to_mp3` if absent, then processes each entry. -/
def main_events (env : Env) (isDir : String → Bool) (folder : String)
    (entries : List DirEntry) : List Event :=
  let mp3_folder := path_join folder "converted_to_mp3"
  Event.logMsg ("Converting all audios in " ++ folder ++ ": Saving MP3 files to "
    ++ mp3_folder) ::
  ((if isDir mp3_folder then [] else [Event.mkdir mp3_folder]) ++
   entries.flatMap (processEntry env folder mp3_folder))

/-- Is this event an `opusdec` invocation? -/
def isOpusdecEv : Event → Bool
  | Event.runOpusdec _ _ _ => true
  | _ => false

/-- Is this event an `oggdec` invocation? -/
def isOggdecEv : Event → Bool
  | Event.runOggdec _ _ _ => true
  | _ => false

/-- Is this event an `ffmpeg` invocation? -/
def isFfmpegEv : Event → Bool
  | Event.runFfmpeg _ _ _ => true
  | _ => false

/-- Is this event a decoder invocation (`opusdec`, `oggdec` or `ffmpeg`)? -/
def isDecoderEv (e : Event) : Bool :=
  isOpusdecEv e || isOggdecEv e || isFfmpegEv e

/-- Is this event a `lame` (encoder) invocation? -/
def isLameEv : Event → Bool
  | Event.runLame _ _ _ => true
  | _ => false

/-- Is this event a `shutil.copy`? -/
def isCopyEv : Event → Bool
  | Event.copyFile _ _ => true
  | _ => false

/-- Is this event a classifier (`file -b`) invocation? -/
def isClassifierEv : Event → Bool
  | Event.runClassifier _ _ => true
  | _ => false

/-- Number of decoder subprocess invocations in a trace. -/
def countDecoders (tr : List Event) : Nat :=
  tr.countP isDecoderEv

/-- Number of encoder (`lame`) invocations in a trace. -/
def countLame (tr : List Event) : Nat :=
  tr.countP isLameEv

/-- Number of `shutil.copy` operations in a trace. -/
def countCopies (tr : List Event) : Nat :=
  tr.countP isCopyEv

/-- Number of classifier (`file -b`) invocations in a trace. -/
def countClassifier (tr : List Event) : Nat :=
  tr.countP isClassifierEv

/-- The branch a trace of `convert_audio` reveals: which decoder ran, or a
copy happened, or nothing but logging (skip). -/
def observedBranch (tr : List Event) : Branch :=
  if tr.any isOpusdecEv then Branch.opus
  else if tr.any isOggdecEv then Branch.vorbis
  else if tr.any isFfmpegEv then Branch.mp4
  else if tr.any isCopyEv then Branch.mp3copy
  else Branch.skip

/-- The paths an event writes a file to (over-approximating: counting a
output path of a tool whether or not the tool succeeded). -/
def writeTargets : Event → List String
  | Event.runOpusdec _ temp _ => [temp]
  | Event.runOggdec _ temp _ => [temp]
  | Event.runFfmpeg _ temp _ => [temp]
  | Event.runLame _ output _ => [output]
  | Event.copyFile _ dst => [dst]
  | _ => []

/-- The exit code carried by a decoder event, if the event is one. -/
def decoderRC : Event → Option Int
  | Event.runOpusdec _ _ rc => some rc
  | Event.runOggdec _ _ rc => some rc
  | Event.runFfmpeg _ _ rc => some rc
  | _ => none

/-- The exit codes of all decoder invocations in a trace, in order. -/
def decoderRCs (tr : List Event) : List Int :=
  tr.filterMap decoderRC

/-- A concrete external world used to exercise the model: `b.ogg` sniffs as
Ogg Vorbis, `c.m4a` as an MPEG-4 container, `song.ogg` and `song.m4a` both
sniff as MP3 already, everything else as plain `data`; every tool succeeds. -/
def demoEnv : Env where
  fileType := fun p =>
    if p = "/in/b.ogg" then ⟨0, "Ogg data, Vorbis audio, mono", ""⟩
    else if p = "/in/c.m4a" then ⟨0, "ISO Media, MPEG v4 system, 3GPP", ""⟩
    else if p = "/in/song.ogg" then ⟨0, "MPEG ADTS, layer III, v1", ""⟩
    else if p = "/in/song.m4a" then ⟨0, "MPEG ADTS, layer III, v1", ""⟩
    else ⟨0, "data", ""⟩
  opusdec := fun _ _ => ⟨0, "", ""⟩
  oggdec := fun _ _ => ⟨0, "", ""⟩
  ffmpeg := fun _ _ => ⟨0, "", ""⟩
  lame := fun _ _ => ⟨0, "", ""⟩
  opusdecOut := fun _ => "OPUSWAV"
  oggdecOut := fun _ => "OGGWAV"
  ffmpegOut := fun _ => "MP4WAV"
  lameOut := fun _ => "ENCODED"

/-- A variant world whose encoder always fails with exit code 1. -/
def demoEnvLameFails : Env :=
  { demoEnv with lame := fun _ _ => ⟨1, "", "lame error"⟩ }

/-- A concrete initial filesystem for the demo folder `/in`. -/
def demoFS : FS := fun p =>
  if p = "/in/a.mp3" then some "AAA"
  else if p = "/in/b.ogg" then some "BBB"
  else if p = "/in/c.m4a" then some "CCC"
  else if p = "/in/d.txt" then some "DDD"
  else if p = "/in/song.ogg" then some "SONG-OGG"
  else if p = "/in/song.m4a" then some "SONG-M4A"
  else if p = "/t.wav" then some "TEMPWAV"
  else none

/-- The directory listing of the scenario from the specification: `a.mp3`,
`b.ogg`, `c.m4a`, `d.txt`, all regular files. -/
def demoEntries : List DirEntry :=
  [⟨"a.mp3", true⟩, ⟨"b.ogg", true⟩, ⟨"c.m4a", true⟩, ⟨"d.txt", true⟩]

/-- The full trace of the demo scenario (output directory absent). -/
def demoTrace : List Event :=
  main_events demoEnv (fun _ => false) "/in" demoEntries

/-- Two strings of which neither is a prefix of the other can never both be
prefixes of the same classifier output. -/
theorem startsWith_excl {t p q : String}
    (h1 : strStartsWith q p = false) (h2 : strStartsWith p q = false)
    (hp : strStartsWith t p = true) : strStartsWith t q = false := by
  unfold strStartsWith at *
  by_contra hq
  rw [Bool.not_eq_false] at hq
  rw [ List.isPrefixOf_iff_prefix] at hp hq
  rcases List.prefix_or_prefix_of_prefix hp hq with h | h
  · rw [← List.isPrefixOf_iff_prefix] at h
    rw [h1] at h
    exact Bool.false_ne_true h
  · rw [← List.isPrefixOf_iff_prefix] at h
    rw [h2] at h
    exact Bool.false_ne_true h

/-- Trace of `convert_audio` when the classifier reports Opus-in-Ogg. -/
theorem convert_audio_opus (env : Env) (i o : String)
    (h : strStartsWith (env.fileType i).stdout "Ogg data, Opus audio" = true) :
    convert_audio env i o =
      Event.runClassifier i (env.fileType i).stdout ::
      Event.runOpusdec i (o ++ ".temp.wav")
        (env.opusdec i (o ++ ".temp.wav")).returncode ::
      (if (env.opusdec i (o ++ ".temp.wav")).returncode = 0 then
        (convert_to_mp3 env (o ++ ".temp.wav") o).1
       else [Event.logMsg ("Couldn\x27t decode OPUS audio of " ++ i ++ ": "
          ++ (env.opusdec i (o ++ ".temp.wav")).stdout
          ++ (env.opusdec i (o ++ ".temp.wav")).stderr)]) := by
  simp only [convert_audio, h, if_true]

/-- Trace of `convert_audio` when the classifier reports Vorbis-in-Ogg. -/
theorem convert_audio_vorbis (env : Env) (i o : String)
    (h0 : strStartsWith (env.fileType i).stdout "Ogg data, Opus audio" = false)
    (h : strStartsWith (env.fileType i).stdout "Ogg data, Vorbis audio" = true) :
    convert_audio env i o =
      Event.runClassifier i (env.fileType i).stdout ::
      Event.runOggdec i (o ++ ".temp.wav")
        (env.oggdec i (o ++ ".temp.wav")).returncode ::
      (if (env.oggdec i (o ++ ".temp.wav")).returncode = 0 then
        (convert_to_mp3 env (o ++ ".temp.wav") o).1
       else [Event.logMsg ("Couldn\x27t decode Ogg Vorbis audio of " ++ i ++ ": "
          ++ (env.oggdec i (o ++ ".temp.wav")).stdout
          ++ (env.oggdec i (o ++ ".temp.wav")).stderr)]) := by
  simp only [convert_audio, h0, h, if_true, Bool.false_eq_true, if_false]

/-- Trace of `convert_audio` when the classifier reports one of the four
MPEG-4/AAC signatures. -/
theorem convert_audio_mp4 (env : Env) (i o : String)
    (h0 : strStartsWith (env.fileType i).stdout "Ogg data, Opus audio" = false)
    (h1 : strStartsWith (env.fileType i).stdout "Ogg data, Vorbis audio" = false)
    (h : (strStartsWith (env.fileType i).stdout "ISO Media, MPEG v4 system, 3GPP"
       || strStartsWith (env.fileType i).stdout "MPEG ADTS, AAC"
       || strStartsWith (env.fileType i).stdout "ISO Media, Apple iTunes ALAC/AAC-LC"
       || strStartsWith (env.fileType i).stdout "ISO Media, MP4 v2") = true) :
    convert_audio env i o =
      Event.runClassifier i (env.fileType i).stdout ::
      Event.runFfmpeg i (o ++ ".temp.wav")
        (env.ffmpeg i (o ++ ".temp.wav")).returncode ::
      (if (env.ffmpeg i (o ++ ".temp.wav")).returncode = 0 then
        (convert_to_mp3 env (o ++ ".temp.wav") o).1
       else [Event.logMsg ("Couldn\x27t decode MP4 audio of " ++ i ++ ": "
          ++ (env.ffmpeg i (o ++ ".temp.wav")).stdout
          ++ (env.ffmpeg i (o ++ ".temp.wav")).stderr)]) := by
  simp only [convert_audio, h0, h1, h, if_true, Bool.false_eq_true, if_false]

/-- Trace of `convert_audio` when the classifier reports MP3 already. -/
theorem convert_audio_mp3copy (env : Env) (i o : String)
    (h0 : strStartsWith (env.fileType i).stdout "Ogg data, Opus audio" = false)
    (h1 : strStartsWith (env.fileType i).stdout "Ogg data, Vorbis audio" = false)
    (h2 : (strStartsWith (env.fileType i).stdout "ISO Media, MPEG v4 system, 3GPP"
       || strStartsWith (env.fileType i).stdout "MPEG ADTS, AAC"
       || strStartsWith (env.fileType i).stdout "ISO Media, Apple iTunes ALAC/AAC-LC"
       || strStartsWith (env.fileType i).stdout "ISO Media, MP4 v2") = false)
    (h : strStartsWith (env.fileType i).stdout "MPEG ADTS, layer III" = true) :
    convert_audio env i o =
      [Event.runClassifier i (env.fileType i).stdout,
       Event.logMsg (i ++ " is already in MP3 format: No converting necessary, copying into output folder."),
       Event.copyFile i o] := by
  simp only [convert_audio, h0, h1, h2, h, if_true, Bool.false_eq_true, if_false]

/-- Trace of `convert_audio` when no signature matches: logged skip only. -/
theorem convert_audio_skip (env : Env) (i o : String)
    (h0 : strStartsWith (env.fileType i).stdout "Ogg data, Opus audio" = false)
    (h1 : strStartsWith (env.fileType i).stdout "Ogg data, Vorbis audio" = false)
    (h2 : (strStartsWith (env.fileType i).stdout "ISO Media, MPEG v4 system, 3GPP"
       || strStartsWith (env.fileType i).stdout "MPEG ADTS, AAC"
       || strStartsWith (env.fileType i).stdout "ISO Media, Apple iTunes ALAC/AAC-LC"
       || strStartsWith (env.fileType i).stdout "ISO Media, MP4 v2") = false)
    (h3 : strStartsWith (env.fileType i).stdout "MPEG ADTS, layer III" = false) :
    convert_audio env i o =
      [Event.runClassifier i (env.fileType i).stdout,
       Event.logMsg ("Couldn\x27t identify audio type \x27" ++ (env.fileType i).stdout
         ++ "\x27 of " ++ i ++ ", skipping")] := by
  simp only [convert_audio, h0, h1, h2, h3, Bool.false_eq_true, if_false]

/-- The encoder step emits no decoder, copy or classifier events. -/
theorem convert_to_mp3_any_false (env : Env) (t o : String) :
    (convert_to_mp3 env t o).1.any isOpusdecEv = false ∧
    (convert_to_mp3 env t o).1.any isOggdecEv = false ∧
    (convert_to_mp3 env t o).1.any isFfmpegEv = false ∧
    (convert_to_mp3 env t o).1.any isCopyEv = false := by
  by_cases h : (env.lame t o).returncode = 0 <;>
    simp [convert_to_mp3, h, isOpusdecEv, isOggdecEv, isFfmpegEv, isCopyEv]

/-- The encoder step runs `lame` exactly once and nothing else. -/
theorem convert_to_mp3_counts (env : Env) (t o : String) :
    countDecoders (convert_to_mp3 env t o).1 = 0 ∧
    countLame (convert_to_mp3 env t o).1 = 1 ∧
    countCopies (convert_to_mp3 env t o).1 = 0 ∧
    countClassifier (convert_to_mp3 env t o).1 = 0 := by
  by_cases h : (env.lame t o).returncode = 0 <;>
    simp [convert_to_mp3, h, countDecoders, countLame, countCopies, countClassifier,
      isDecoderEv, isOpusdecEv, isOggdecEv, isFfmpegEv, isLameEv, isCopyEv,
      isClassifierEv, List.countP_cons]

/-- The branch observable from the trace of `convert_audio` is exactly the
branch `selectBranch` computes from the classifier output string. -/
theorem observedBranch_convert (env : Env) (i o : String) :
    observedBranch (convert_audio env i o) = selectBranch (env.fileType i).stdout := by
  obtain ⟨ha, hb, hc, hd⟩ := convert_to_mp3_any_false env (o ++ ".temp.wav") o
  cases h0 : strStartsWith (env.fileType i).stdout "Ogg data, Opus audio"
  case true =>
    rw [convert_audio_opus env i o h0]
    simp [observedBranch, selectBranch, h0, isOpusdecEv]
  case false =>
  cases h1 : strStartsWith (env.fileType i).stdout "Ogg data, Vorbis audio"
  case true =>
    rw [convert_audio_vorbis env i o h0 h1]
    by_cases hrc : (env.oggdec i (o ++ ".temp.wav")).returncode = 0 <;>
      simp [observedBranch, selectBranch, h0, h1, hrc, ha, hb, hc, hd,
        isOpusdecEv, isOggdecEv, isFfmpegEv, isCopyEv]
  case false =>
  cases h2 : (strStartsWith (env.fileType i).stdout "ISO Media, MPEG v4 system, 3GPP"
      || strStartsWith (env.fileType i).stdout "MPEG ADTS, AAC"
      || strStartsWith (env.fileType i).stdout "ISO Media, Apple iTunes ALAC/AAC-LC"
      || strStartsWith (env.fileType i).stdout "ISO Media, MP4 v2")
  case true =>
    rw [convert_audio_mp4 env i o h0 h1 h2]
    by_cases hrc : (env.ffmpeg i (o ++ ".temp.wav")).returncode = 0 <;>
      simp [observedBranch, selectBranch, h0, h1, h2, hrc, ha, hb, hc, hd,
        isOpusdecEv, isOggdecEv, isFfmpegEv, isCopyEv]
  case false =>
  cases h3 : strStartsWith (env.fileType i).stdout "MPEG ADTS, layer III"
  case true =>
    rw [convert_audio_mp3copy env i o h0 h1 h2 h3]
    simp [observedBranch, selectBranch, h0, h1, h2, h3,
      isOpusdecEv, isOggdecEv, isFfmpegEv, isCopyEv]
  case false =>
    rw [convert_audio_skip env i o h0 h1 h2 h3]
    simp [observedBranch, selectBranch, h0, h1, h2, h3,
      isOpusdecEv, isOggdecEv, isFfmpegEv, isCopyEv]

/-- The function `selectBranch` yields `opus` exactly when the Opus signature matches. -/
theorem selectBranch_eq_opus {t : String} :
    selectBranch t = Branch.opus ↔
      strStartsWith t "Ogg data, Opus audio" = true := by
  cases h0 : strStartsWith t "Ogg data, Opus audio"
  case true => simp [selectBranch, h0]
  case false =>
  cases h1 : strStartsWith t "Ogg data, Vorbis audio"
  case true => simp [selectBranch, h0, h1]
  case false =>
  cases h2 : (strStartsWith t "ISO Media, MPEG v4 system, 3GPP"
      || strStartsWith t "MPEG ADTS, AAC"
      || strStartsWith t "ISO Media, Apple iTunes ALAC/AAC-LC"
      || strStartsWith t "ISO Media, MP4 v2")
  case true => simp [selectBranch, h0, h1, h2]
  case false =>
  cases h3 : strStartsWith t "MPEG ADTS, layer III" <;>
    simp [selectBranch, h0, h1, h2, h3]

/-- The function `selectBranch` yields `vorbis` exactly when the Opus test failed and the
Vorbis signature matches. -/
theorem selectBranch_eq_vorbis {t : String} :
    selectBranch t = Branch.vorbis ↔
      (strStartsWith t "Ogg data, Opus audio" = false ∧
       strStartsWith t "Ogg data, Vorbis audio" = true) := by
  cases h0 : strStartsWith t "Ogg data, Opus audio"
  case true => simp [selectBranch, h0]
  case false =>
  cases h1 : strStartsWith t "Ogg data, Vorbis audio"
  case true => simp [selectBranch, h0, h1]
  case false =>
  cases h2 : (strStartsWith t "ISO Media, MPEG v4 system, 3GPP"
      || strStartsWith t "MPEG ADTS, AAC"
      || strStartsWith t "ISO Media, Apple iTunes ALAC/AAC-LC"
      || strStartsWith t "ISO Media, MP4 v2")
  case true => simp [selectBranch, h0, h1, h2]
  case false =>
  cases h3 : strStartsWith t "MPEG ADTS, layer III" <;>
    simp [selectBranch, h0, h1, h2, h3]

/-- The function `selectBranch` yields `mp4` exactly when the two Ogg tests failed and
one of the four MPEG-4/AAC signatures matches. -/
theorem selectBranch_eq_mp4 {t : String} :
    selectBranch t = Branch.mp4 ↔
      (strStartsWith t "Ogg data, Opus audio" = false ∧
       strStartsWith t "Ogg data, Vorbis audio" = false ∧
       (strStartsWith t "ISO Media, MPEG v4 system, 3GPP"
         || strStartsWith t "MPEG ADTS, AAC"
         || strStartsWith t "ISO Media, Apple iTunes ALAC/AAC-LC"
         || strStartsWith t "ISO Media, MP4 v2") = true) := by
  cases h0 : strStartsWith t "Ogg data, Opus audio"
  case true => simp [selectBranch, h0]
  case false =>
  cases h1 : strStartsWith t "Ogg data, Vorbis audio"
  case true => simp [selectBranch, h0, h1]
  case false =>
  cases h2 : (strStartsWith t "ISO Media, MPEG v4 system, 3GPP"
      || strStartsWith t "MPEG ADTS, AAC"
      || strStartsWith t "ISO Media, Apple iTunes ALAC/AAC-LC"
      || strStartsWith t "ISO Media, MP4 v2")
  case true => simp [selectBranch, h0, h1, h2]
  case false =>
  cases h3 : strStartsWith t "MPEG ADTS, layer III" <;>
    simp [selectBranch, h0, h1, h2, h3]

/-- The function `selectBranch` yields `mp3copy` exactly when the first three tests
failed and the MP3 signature matches. -/
theorem selectBranch_eq_mp3copy {t : String} :
    selectBranch t = Branch.mp3copy ↔
      (strStartsWith t "Ogg data, Opus audio" = false ∧
       strStartsWith t "Ogg data, Vorbis audio" = false ∧
       (strStartsWith t "ISO Media, MPEG v4 system, 3GPP"
         || strStartsWith t "MPEG ADTS, AAC"
         || strStartsWith t "ISO Media, Apple iTunes ALAC/AAC-LC"
         || strStartsWith t "ISO Media, MP4 v2") = false ∧
       strStartsWith t "MPEG ADTS, layer III" = true) := by
  cases h0 : strStartsWith t "Ogg data, Opus audio"
  case true => simp [selectBranch, h0]
  case false =>
  cases h1 : strStartsWith t "Ogg data, Vorbis audio"
  case true => simp [selectBranch, h0, h1]
  case false =>
  cases h2 : (strStartsWith t "ISO Media, MPEG v4 system, 3GPP"
      || strStartsWith t "MPEG ADTS, AAC"
      || strStartsWith t "ISO Media, Apple iTunes ALAC/AAC-LC"
      || strStartsWith t "ISO Media, MP4 v2")
  case true => simp [selectBranch, h0, h1, h2]
  case false =>
  cases h3 : strStartsWith t "MPEG ADTS, layer III" <;>
    simp [selectBranch, h0, h1, h2, h3]

/-- The function `selectBranch` yields `skip` exactly when every signature test fails. -/
theorem selectBranch_eq_skip {t : String} :
    selectBranch t = Branch.skip ↔
      (strStartsWith t "Ogg data, Opus audio" = false ∧
       strStartsWith t "Ogg data, Vorbis audio" = false ∧
       (strStartsWith t "ISO Media, MPEG v4 system, 3GPP"
         || strStartsWith t "MPEG ADTS, AAC"
         || strStartsWith t "ISO Media, Apple iTunes ALAC/AAC-LC"
         || strStartsWith t "ISO Media, MP4 v2") = false ∧
       strStartsWith t "MPEG ADTS, layer III" = false) := by
  cases h0 : strStartsWith t "Ogg data, Opus audio"
  case true => simp [selectBranch, h0]
  case false =>
  cases h1 : strStartsWith t "Ogg data, Vorbis audio"
  case true => simp [selectBranch, h0, h1]
  case false =>
  cases h2 : (strStartsWith t "ISO Media, MPEG v4 system, 3GPP"
      || strStartsWith t "MPEG ADTS, AAC"
      || strStartsWith t "ISO Media, Apple iTunes ALAC/AAC-LC"
      || strStartsWith t "ISO Media, MP4 v2")
  case true => simp [selectBranch, h0, h1, h2]
  case false =>
  cases h3 : strStartsWith t "MPEG ADTS, layer III" <;>
    simp [selectBranch, h0, h1, h2, h3]

/-- A classifier output starting with the MP3 signature matches none of the
signatures tested before it in the chain. -/
theorem mp3_sig_excludes {t : String}
    (h : strStartsWith t "MPEG ADTS, layer III" = true) :
    strStartsWith t "Ogg data, Opus audio" = false ∧
    strStartsWith t "Ogg data, Vorbis audio" = false ∧
    (strStartsWith t "ISO Media, MPEG v4 system, 3GPP"
      || strStartsWith t "MPEG ADTS, AAC"
      || strStartsWith t "ISO Media, Apple iTunes ALAC/AAC-LC"
      || strStartsWith t "ISO Media, MP4 v2") = false := by
  have e1 : strStartsWith t "ISO Media, MPEG v4 system, 3GPP" = false :=
    startsWith_excl (by decide) (by decide) h
  have e2 : strStartsWith t "MPEG ADTS, AAC" = false :=
    startsWith_excl (by decide) (by decide) h
  have e3 : strStartsWith t "ISO Media, Apple iTunes ALAC/AAC-LC" = false :=
    startsWith_excl (by decide) (by decide) h
  have e4 : strStartsWith t "ISO Media, MP4 v2" = false :=
    startsWith_excl (by decide) (by decide) h
  refine ⟨startsWith_excl (by decide) (by decide) h,
    startsWith_excl (by decide) (by decide) h, ?_⟩
  simp [e1, e2, e3, e4]

/-- C2: for every dispatched file the type-string branches are tested in the
fixed priority order — Opus-in-Ogg first, then Vorbis-in-Ogg, then the four
MPEG-4/AAC signatures as alternatives of one branch, then the MP3
passthrough signature, then the fallback skip — and exactly one of the five
branches fires per file: the branch observable in the trace of
`convert_audio` equals `selectBranch` of the classifier output, and
`selectBranch` (a total function into the five-way `Branch` type, so
exactly one branch fires) satisfies the priority-order characterization. -/
theorem claim_C2 (env : Env) (i o t : String) :
    observedBranch (convert_audio env i o) = selectBranch (env.fileType i).stdout ∧
    (selectBranch t = Branch.opus ↔
      strStartsWith t "Ogg data, Opus audio" = true) ∧
    (selectBranch t = Branch.vorbis ↔
      (strStartsWith t "Ogg data, Opus audio" = false ∧
       strStartsWith t "Ogg data, Vorbis audio" = true)) ∧
    (selectBranch t = Branch.mp4 ↔
      (strStartsWith t "Ogg data, Opus audio" = false ∧
       strStartsWith t "Ogg data, Vorbis audio" = false ∧
       (strStartsWith t "ISO Media, MPEG v4 system, 3GPP"
         || strStartsWith t "MPEG ADTS, AAC"
         || strStartsWith t "ISO Media, Apple iTunes ALAC/AAC-LC"
         || strStartsWith t "ISO Media, MP4 v2") = true)) ∧
    (selectBranch t = Branch.mp3copy ↔
      (strStartsWith t "Ogg data, Opus audio" = false ∧
       strStartsWith t "Ogg data, Vorbis audio" = false ∧
       (strStartsWith t "ISO Media, MPEG v4 system, 3GPP"
         || strStartsWith t "MPEG ADTS, AAC"
         || strStartsWith t "ISO Media, Apple iTunes ALAC/AAC-LC"
         || strStartsWith t "ISO Media, MP4 v2") = false ∧
       strStartsWith t "MPEG ADTS, layer III" = true)) ∧
    (selectBranch t = Branch.skip ↔
      (strStartsWith t "Ogg data, Opus audio" = false ∧
       strStartsWith t "Ogg data, Vorbis audio" = false ∧
       (strStartsWith t "ISO Media, MPEG v4 system, 3GPP"
         || strStartsWith t "MPEG ADTS, AAC"
         || strStartsWith t "ISO Media, Apple iTunes ALAC/AAC-LC"
         || strStartsWith t "ISO Media, MP4 v2") = false ∧
       strStartsWith t "MPEG ADTS, layer III" = false)) :=
  ⟨observedBranch_convert env i o, selectBranch_eq_opus, selectBranch_eq_vorbis,
   selectBranch_eq_mp4, selectBranch_eq_mp3copy, selectBranch_eq_skip⟩

/-- C10: the branch `convert_audio` selects depends on the classifier
output string alone — two invocations whose `file -b` calls return equal
standard-output strings exhibit the same branch, whatever the input names
or extensions; in particular an input whose content sniffs as MP3 is copied
through rather than decoded. -/
theorem claim_C10 (env1 env2 : Env) (i1 o1 i2 o2 : String)
    (h : (env1.fileType i1).stdout = (env2.fileType i2).stdout) :
    observedBranch (convert_audio env1 i1 o1) =
      observedBranch (convert_audio env2 i2 o2) ∧
    (strStartsWith (env1.fileType i1).stdout "MPEG ADTS, layer III" = true →
      observedBranch (convert_audio env1 i1 o1) = Branch.mp3copy ∧
      Event.copyFile i1 o1 ∈ convert_audio env1 i1 o1) := by
  constructor
  · rw [observedBranch_convert, observedBranch_convert, h]
  · intro hmp3
    obtain ⟨h0, h1, h2⟩ := mp3_sig_excludes hmp3
    constructor
    · rw [observedBranch_convert]
      exact selectBranch_eq_mp3copy.mpr ⟨h0, h1, h2, hmp3⟩
    · rw [convert_audio_mp3copy env1 i1 o1 h0 h1 h2 hmp3]
      simp

/-- Witness for C10 at a concrete input: `song.ogg` and `song.m4a` both
sniff as MP3 in `demoEnv`, select the same branch, and the `.ogg`-named
file is copied through. -/
theorem claim_C10_witness :
    observedBranch (convert_audio demoEnv "/in/song.ogg" "/in/converted_to_mp3/song.mp3") =
      observedBranch (convert_audio demoEnv "/in/song.m4a" "/in/converted_to_mp3/song.mp3") ∧
    Event.copyFile "/in/song.ogg" "/in/converted_to_mp3/song.mp3" ∈
      convert_audio demoEnv "/in/song.ogg" "/in/converted_to_mp3/song.mp3" :=
  ⟨(claim_C10 demoEnv demoEnv "/in/song.ogg" "/in/converted_to_mp3/song.mp3"
      "/in/song.m4a" "/in/converted_to_mp3/song.mp3" (by decide)).1,
   ((claim_C10 demoEnv demoEnv "/in/song.ogg" "/in/converted_to_mp3/song.mp3"
      "/in/song.m4a" "/in/converted_to_mp3/song.mp3" (by decide)).2 (by decide)).2⟩

/-- The trace of the encoder step contains no decoder invocation at all. -/
theorem convert_to_mp3_decoderRCs (env : Env) (t o : String) :
    decoderRCs (convert_to_mp3 env t o).1 = [] := by
  by_cases h : (env.lame t o).returncode = 0 <;>
    simp [convert_to_mp3, h, decoderRCs, decoderRC]

/-- On a supported non-MP3 branch, `convert_audio` runs exactly one decoder,
and runs `lame` exactly once if the decoder exited 0 and never otherwise. -/
theorem convert_audio_decoder_counts (env : Env) (i o : String)
    (h : selectBranch (env.fileType i).stdout = Branch.opus ∨
         selectBranch (env.fileType i).stdout = Branch.vorbis ∨
         selectBranch (env.fileType i).stdout = Branch.mp4) :
    countDecoders (convert_audio env i o) = 1 ∧
    ∃ rc : Int, decoderRCs (convert_audio env i o) = [rc] ∧
      (rc = 0 → countLame (convert_audio env i o) = 1) ∧
      (rc ≠ 0 → countLame (convert_audio env i o) = 0) := by
  obtain ⟨d0, l1, c0, cl0⟩ := convert_to_mp3_counts env (o ++ ".temp.wav") o
  have drc := convert_to_mp3_decoderRCs env (o ++ ".temp.wav") o
  simp only [countDecoders, countLame, countCopies, countClassifier, decoderRCs] at d0 l1 drc ⊢
  rcases h with h | h | h
  · obtain hc := selectBranch_eq_opus.mp h
    rw [convert_audio_opus env i o hc]
    refine ⟨?_, ⟨(env.opusdec i (o ++ ".temp.wav")).returncode, ?_, ?_, ?_⟩⟩ <;>
      by_cases hrc : (env.opusdec i (o ++ ".temp.wav")).returncode = 0 <;>
      simp [hrc, List.countP_cons, isDecoderEv, isOpusdecEv, isOggdecEv, isFfmpegEv,
        isLameEv, decoderRC, d0, l1, drc]
  · obtain ⟨hc0, hc⟩ := selectBranch_eq_vorbis.mp h
    rw [convert_audio_vorbis env i o hc0 hc]
    refine ⟨?_, ⟨(env.oggdec i (o ++ ".temp.wav")).returncode, ?_, ?_, ?_⟩⟩ <;>
      by_cases hrc : (env.oggdec i (o ++ ".temp.wav")).returncode = 0 <;>
      simp [hrc, List.countP_cons, isDecoderEv, isOpusdecEv, isOggdecEv, isFfmpegEv,
        isLameEv, decoderRC, d0, l1, drc]
  · obtain ⟨hc0, hc1, hc⟩ := selectBranch_eq_mp4.mp h
    rw [convert_audio_mp4 env i o hc0 hc1 hc]
    refine ⟨?_, ⟨(env.ffmpeg i (o ++ ".temp.wav")).returncode, ?_, ?_, ?_⟩⟩ <;>
      by_cases hrc : (env.ffmpeg i (o ++ ".temp.wav")).returncode = 0 <;>
      simp [hrc, List.countP_cons, isDecoderEv, isOpusdecEv, isOggdecEv, isFfmpegEv,
        isLameEv, decoderRC, d0, l1, drc]

/-- C3: for every file classified as a supported non-MP3 type, exactly one
decoder subprocess is invoked; if that decoder exits 0, exactly one encoder
invocation follows; if it exits non-zero the encoder is never invoked for
that file; and the trace of the main loop for `e :: rest` is the trace for `e`
followed by the traces for `rest`, so processing continues with the next
file regardless. -/
theorem claim_C3 (env : Env) (isDir : String → Bool) (folder i o : String)
    (e : DirEntry) (rest : List DirEntry)
    (h : selectBranch (env.fileType i).stdout = Branch.opus ∨
         selectBranch (env.fileType i).stdout = Branch.vorbis ∨
         selectBranch (env.fileType i).stdout = Branch.mp4) :
    countDecoders (convert_audio env i o) = 1 ∧
    (∃ rc : Int, decoderRCs (convert_audio env i o) = [rc] ∧
      (rc = 0 → countLame (convert_audio env i o) = 1) ∧
      (rc ≠ 0 → countLame (convert_audio env i o) = 0)) ∧
    main_events env isDir folder (e :: rest) =
      Event.logMsg ("Converting all audios in " ++ folder ++ ": Saving MP3 files to "
        ++ path_join folder "converted_to_mp3") ::
      ((if isDir (path_join folder "converted_to_mp3") then []
        else [Event.mkdir (path_join folder "converted_to_mp3")]) ++
       (processEntry env folder (path_join folder "converted_to_mp3") e ++
        rest.flatMap (processEntry env folder (path_join folder "converted_to_mp3")))) := by
  obtain ⟨h1, h2⟩ := convert_audio_decoder_counts env i o h
  exact ⟨h1, h2, by simp [main_events]⟩

/-- Witness for C3: in `demoEnv`, `b.ogg` is Vorbis, one decoder runs with
exit code 0 and one `lame` invocation follows. -/
theorem claim_C3_witness :
    countDecoders (convert_audio demoEnv "/in/b.ogg" "/in/converted_to_mp3/b.mp3") = 1 ∧
    countLame (convert_audio demoEnv "/in/b.ogg" "/in/converted_to_mp3/b.mp3") = 1 := by
  obtain ⟨h1, ⟨rc, hrc, h0, -⟩, -⟩ := claim_C3 demoEnv (fun _ => false) "/in" "/in/b.ogg"
    "/in/converted_to_mp3/b.mp3" ⟨"b.ogg", true⟩ [] (Or.inr (Or.inl (by decide)))
  have : rc = 0 := by
    have : decoderRCs (convert_audio demoEnv "/in/b.ogg" "/in/converted_to_mp3/b.mp3") = [0] := by decide
    rw [this] at hrc
    exact (List.cons.injEq _ _ _ _ ▸ hrc).1.symm
  exact ⟨h1, h0 this⟩

/-- C4: `convert_to_mp3` returns `true` exactly when `lame` exits 0; on
success it deletes the intermediate file and logs the output path; on
failure it returns `false`, logs the error, and leaves the intermediate
file untouched on the filesystem. -/
theorem claim_C4 (env : Env) (fs : FS) (temp output : String) :
    ((convert_to_mp3 env temp output).2 = true ↔
      (env.lame temp output).returncode = 0) ∧
    ((env.lame temp output).returncode = 0 →
      runFS env fs (convert_to_mp3 env temp output).1 temp = none ∧
      Event.logMsg ("Successfully saved " ++ output) ∈
        (convert_to_mp3 env temp output).1) ∧
    ((env.lame temp output).returncode ≠ 0 →
      (convert_to_mp3 env temp output).2 = false ∧
      runFS env fs (convert_to_mp3 env temp output).1 temp = fs temp ∧
      Event.logMsg ("Error while trying to encode " ++ temp ++ " to MP3: "
        ++ (env.lame temp output).stdout ++ (env.lame temp output).stderr) ∈
        (convert_to_mp3 env temp output).1) := by
  by_cases h : (env.lame temp output).returncode = 0 <;>
    simp [convert_to_mp3, h, runFS, applyEvent]

/-- Witness for C4: with the always-failing encoder the intermediate file
`/t.wav` still exists afterwards, and with the succeeding one it is gone. -/
theorem claim_C4_witness :
    (runFS demoEnv demoFS (convert_to_mp3 demoEnv "/t.wav" "/out.mp3").1 "/t.wav" = none ∧
      Event.logMsg ("Successfully saved " ++ "/out.mp3") ∈
        (convert_to_mp3 demoEnv "/t.wav" "/out.mp3").1) ∧
    runFS demoEnvLameFails demoFS
      (convert_to_mp3 demoEnvLameFails "/t.wav" "/out.mp3").1 "/t.wav" = demoFS "/t.wav" :=
  ⟨(claim_C4 demoEnv demoFS "/t.wav" "/out.mp3").2.1 (by decide),
   ((claim_C4 demoEnvLameFails demoFS "/t.wav" "/out.mp3").2.2 (by decide)).2.1⟩

/-- C8: when the classifier output matches no known signature, the file is
skipped with a logged message, no decoder or encoder is invoked, no copy
happens, and the filesystem is unchanged. -/
theorem claim_C8 (env : Env) (fs : FS) (i o : String)
    (h : selectBranch (env.fileType i).stdout = Branch.skip) :
    convert_audio env i o =
      [Event.runClassifier i (env.fileType i).stdout,
       Event.logMsg ("Couldn\x27t identify audio type \x27" ++ (env.fileType i).stdout
         ++ "\x27 of " ++ i ++ ", skipping")] ∧
    countDecoders (convert_audio env i o) = 0 ∧
    countLame (convert_audio env i o) = 0 ∧
    countCopies (convert_audio env i o) = 0 ∧
    (∀ p, runFS env fs (convert_audio env i o) p = fs p) := by
  obtain ⟨h0, h1, h2, h3⟩ := selectBranch_eq_skip.mp h
  rw [convert_audio_skip env i o h0 h1 h2 h3]
  refine ⟨rfl, ?_, ?_, ?_, fun p => ?_⟩ <;>
    simp [countDecoders, countLame, countCopies, List.countP_cons, isDecoderEv,
      isOpusdecEv, isOggdecEv, isFfmpegEv, isLameEv, isCopyEv, runFS, applyEvent]

/-- Witness for C8: `d.txt` sniffs as plain `data` in `demoEnv`; its
dispatch trace is the classifier run plus the skip log line only. -/
theorem claim_C8_witness :
    convert_audio demoEnv "/in/d.txt" "/in/converted_to_mp3/d.mp3" =
      [Event.runClassifier "/in/d.txt" "data",
       Event.logMsg ("Couldn\x27t identify audio type \x27" ++ "data"
         ++ "\x27 of " ++ "/in/d.txt" ++ ", skipping")] ∧
    runFS demoEnv demoFS (convert_audio demoEnv "/in/d.txt" "/in/converted_to_mp3/d.mp3")
      "/in/converted_to_mp3/d.mp3" = none := by
  have h := claim_C8 demoEnv demoFS "/in/d.txt" "/in/converted_to_mp3/d.mp3" (by decide)
  refine ⟨h.1.trans (by decide), ?_⟩
  rw [h.2.2.2.2 "/in/converted_to_mp3/d.mp3"]
  decide

/-- C5 (amended): a directory entry that is hidden, not a regular file, or
has an extension outside the allow-list never reaches the dispatcher: its
trace is empty or a single skip log line, contains no classifier, decoder,
encoder or copy event, and leaves the filesystem unchanged; moreover a
hidden or non-regular entry is passed over silently (empty trace), while a
visible regular entry failing only the extension filter gets exactly the
skip log line. -/
theorem claim_C5 (env : Env) (fs : FS) (folder mp3_folder : String) (e : DirEntry)
    (h : strStartsWith e.name "." = true ∨ e.isRegularFile = false ∨
         allowedExtensions.contains (splitext e.name).2 = false) :
    (processEntry env folder mp3_folder e = [] ∨
     processEntry env folder mp3_folder e = [Event.logMsg ("Skipping " ++ e.name)]) ∧
    countClassifier (processEntry env folder mp3_folder e) = 0 ∧
    countDecoders (processEntry env folder mp3_folder e) = 0 ∧
    countLame (processEntry env folder mp3_folder e) = 0 ∧
    countCopies (processEntry env folder mp3_folder e) = 0 ∧
    (∀ p, runFS env fs (processEntry env folder mp3_folder e) p = fs p) ∧
    (((!strStartsWith e.name ".") && e.isRegularFile) = false →
      processEntry env folder mp3_folder e = []) ∧
    (((!strStartsWith e.name ".") && e.isRegularFile) = true →
      allowedExtensions.contains (splitext e.name).2 = false →
      processEntry env folder mp3_folder e =
        [Event.logMsg ("Skipping " ++ e.name)]) := by
  have htr : processEntry env folder mp3_folder e = [] ∨
      processEntry env folder mp3_folder e =
        [Event.logMsg ("Skipping " ++ e.name)] := by
    rcases h with h | h | h
    · left
      simp [processEntry, h]
    · left
      simp [processEntry, h]
    · by_cases h1 : strStartsWith e.name "." = true
      · left
        simp [processEntry, h1]
      · by_cases h2 : e.isRegularFile = true
        · right
          simp only [Bool.not_eq_true] at h1
          have h3 : (splitext e.name).2 ∉ allowedExtensions := by simpa using h
          simp [processEntry, h1, h2, h3]
        · left
          simp only [Bool.not_eq_true] at h2
          simp [processEntry, h2]
  have hsilent : ((!strStartsWith e.name ".") && e.isRegularFile) = false →
      processEntry env folder mp3_folder e = [] := by
    intro hv
    simp [processEntry, hv]
  have hlogged : ((!strStartsWith e.name ".") && e.isRegularFile) = true →
      allowedExtensions.contains (splitext e.name).2 = false →
      processEntry env folder mp3_folder e =
        [Event.logMsg ("Skipping " ++ e.name)] := by
    intro hv hext
    have h3 : (splitext e.name).2 ∉ allowedExtensions := by simpa using hext
    simp [processEntry, hv, h3]
  rcases htr with htr | htr <;> rw [htr] <;> rw [htr] at hsilent hlogged <;>
    exact ⟨by simp, by simp [countClassifier, List.countP_cons, isClassifierEv],
      by simp [countDecoders, List.countP_cons, isDecoderEv, isOpusdecEv, isOggdecEv,
        isFfmpegEv],
      by simp [countLame, List.countP_cons, isLameEv],
      by simp [countCopies, List.countP_cons, isCopyEv],
      fun p => by simp [runFS, applyEvent], hsilent, hlogged⟩

/-- C5 counterexample: the hidden entry `.x.ogg` (allow-listed extension,
regular file) is passed over with a completely empty trace: no skip log
line is emitted for it, refuting the parenthetical that every filtered
entry is logged as skipped. -/
theorem claim_C5_counterexample :
    processEntry demoEnv "/in" "/in/converted_to_mp3" ⟨".x.ogg", true⟩ = [] ∧
    (processEntry demoEnv "/in" "/in/converted_to_mp3" ⟨".x.ogg", true⟩).countP
      (fun ev => match ev with | Event.logMsg _ => true | _ => false) = 0 := by
  decide

/-- Witness for C5: `d.txt` is only logged as skipped and its would-be
output path stays absent. -/
theorem claim_C5_witness :
    (processEntry demoEnv "/in" "/in/converted_to_mp3" ⟨"d.txt", true⟩ = [] ∨
     processEntry demoEnv "/in" "/in/converted_to_mp3" ⟨"d.txt", true⟩ =
       [Event.logMsg ("Skipping " ++ "d.txt")]) ∧
    runFS demoEnv demoFS (processEntry demoEnv "/in" "/in/converted_to_mp3" ⟨"d.txt", true⟩)
      "/in/converted_to_mp3/d.mp3" = demoFS "/in/converted_to_mp3/d.mp3" ∧
    processEntry demoEnv "/in" "/in/converted_to_mp3" ⟨"d.txt", true⟩ =
      [Event.logMsg ("Skipping " ++ "d.txt")] := by
  have h := claim_C5 demoEnv demoFS "/in" "/in/converted_to_mp3" ⟨"d.txt", true⟩
    (Or.inr (Or.inr (by decide)))
  exact ⟨h.1, h.2.2.2.2.2.1 _, h.2.2.2.2.2.2.2 (by decide) (by decide)⟩

/-- C6: a file whose classifier output starts with the MP3 signature is
handled by a byte-for-byte copy: the trace is classifier run, log line and
`shutil.copy` only, with no decoder and no encoder; the output path holds
exactly the bytes of the input, and every other path (in particular the would-be
intermediate file) is untouched. -/
theorem claim_C6 (env : Env) (fs : FS) (i o : String)
    (h : strStartsWith (env.fileType i).stdout "MPEG ADTS, layer III" = true) :
    convert_audio env i o =
      [Event.runClassifier i (env.fileType i).stdout,
       Event.logMsg (i ++ " is already in MP3 format: No converting necessary, copying into output folder."),
       Event.copyFile i o] ∧
    countDecoders (convert_audio env i o) = 0 ∧
    countLame (convert_audio env i o) = 0 ∧
    runFS env fs (convert_audio env i o) o = fs i ∧
    (∀ p, p ≠ o → runFS env fs (convert_audio env i o) p = fs p) := by
  obtain ⟨h0, h1, h2⟩ := mp3_sig_excludes h
  rw [convert_audio_mp3copy env i o h0 h1 h2 h]
  refine ⟨rfl, ?_, ?_, ?_, fun p hp => ?_⟩
  · simp [countDecoders, List.countP_cons, isDecoderEv, isOpusdecEv, isOggdecEv,
      isFfmpegEv]
  · simp [countLame, List.countP_cons, isLameEv]
  · simp [runFS, applyEvent]
  · simp [runFS, applyEvent, hp]

/-- Witness for C6: `song.ogg` sniffs as MP3; its output equals its input
bytes and no intermediate file appears. -/
theorem claim_C6_witness :
    runFS demoEnv demoFS (convert_audio demoEnv "/in/song.ogg" "/in/converted_to_mp3/song.mp3")
        "/in/converted_to_mp3/song.mp3" = demoFS "/in/song.ogg" ∧
    runFS demoEnv demoFS (convert_audio demoEnv "/in/song.ogg" "/in/converted_to_mp3/song.mp3")
        "/in/converted_to_mp3/song.mp3.temp.wav" = none := by
  have h := claim_C6 demoEnv demoFS "/in/song.ogg" "/in/converted_to_mp3/song.mp3" (by decide)
  exact ⟨h.2.2.2.1,
    (h.2.2.2.2 "/in/converted_to_mp3/song.mp3.temp.wav" (by decide)).trans (by decide)⟩

/-- C1 counterexample: in the scenario of the specification (`a.mp3`, `b.ogg`
Vorbis, `c.m4a`, `d.txt`, all tools succeeding) the program does NOT
produce `converted_to_mp3/a.mp3`: `.mp3` is outside the extension
allow-list, so `a.mp3` is logged as skipped, no copy event occurs anywhere
in the run, and the claimed output path stays absent. -/
theorem claim_C1_counterexample :
    runFS demoEnv demoFS demoTrace "/in/converted_to_mp3/a.mp3" = none ∧
    Event.logMsg "Skipping a.mp3" ∈ demoTrace ∧
    countCopies demoTrace = 0 ∧
    demoTrace.countP (fun ev => match ev with
      | Event.runClassifier p _ => p == "/in/a.mp3"
      | _ => false) = 0 := by decide

/-- C1 amended: in that scenario `converted_to_mp3/b.mp3` and
`converted_to_mp3/c.mp3` are produced (encoder output), `a.mp3` is skipped
at the extension filter with no output and a `Skipping a.mp3` log line,
`d.txt` likewise produces no output with a skip log line, and both
intermediate files are cleaned up. -/
theorem claim_C1_amended :
    runFS demoEnv demoFS demoTrace "/in/converted_to_mp3/b.mp3" = some "ENCODED" ∧
    runFS demoEnv demoFS demoTrace "/in/converted_to_mp3/c.mp3" = some "ENCODED" ∧
    runFS demoEnv demoFS demoTrace "/in/converted_to_mp3/a.mp3" = none ∧
    Event.logMsg "Skipping a.mp3" ∈ demoTrace ∧
    runFS demoEnv demoFS demoTrace "/in/converted_to_mp3/d.mp3" = none ∧
    Event.logMsg "Skipping d.txt" ∈ demoTrace ∧
    runFS demoEnv demoFS demoTrace "/in/converted_to_mp3/b.mp3.temp.wav" = none ∧
    runFS demoEnv demoFS demoTrace "/in/converted_to_mp3/c.mp3.temp.wav" = none := by
  decide

/-- Every write of the encoder step targets the output path. -/
theorem convert_to_mp3_writes (env : Env) (t o : String) :
    ∀ ev ∈ (convert_to_mp3 env t o).1, ∀ p ∈ writeTargets ev, p = o := by
  intro ev hev p hp
  by_cases h : (env.lame t o).returncode = 0
  · simp [convert_to_mp3, h] at hev
    rcases hev with rfl | rfl | rfl <;> simp [writeTargets] at hp <;> try exact hp
  · simp [convert_to_mp3, h] at hev
    rcases hev with rfl | rfl <;> simp [writeTargets] at hp <;> try exact hp

/-- Every write of `convert_audio` targets the output path or the
intermediate path `output ++ ".temp.wav"`. -/
theorem convert_audio_writes (env : Env) (i o : String) :
    ∀ ev ∈ convert_audio env i o, ∀ p ∈ writeTargets ev,
      p = o ∨ p = o ++ ".temp.wav" := by
  intro ev hev p hp
  have hmp3 := fun t o => convert_to_mp3_writes env t o ev
  cases h0 : strStartsWith (env.fileType i).stdout "Ogg data, Opus audio"
  case true =>
    rw [convert_audio_opus env i o h0] at hev
    rcases List.mem_cons.mp hev with rfl | hev
    · simp [writeTargets] at hp
    rcases List.mem_cons.mp hev with rfl | hev
    · simp [writeTargets] at hp
      exact Or.inr hp
    by_cases hrc : (env.opusdec i (o ++ ".temp.wav")).returncode = 0
    · rw [if_pos hrc] at hev
      exact Or.inl (hmp3 _ _ hev p hp)
    · rw [if_neg hrc] at hev
      simp at hev
      subst hev
      simp [writeTargets] at hp
  case false =>
  cases h1 : strStartsWith (env.fileType i).stdout "Ogg data, Vorbis audio"
  case true =>
    rw [convert_audio_vorbis env i o h0 h1] at hev
    rcases List.mem_cons.mp hev with rfl | hev
    · simp [writeTargets] at hp
    rcases List.mem_cons.mp hev with rfl | hev
    · simp [writeTargets] at hp
      exact Or.inr hp
    by_cases hrc : (env.oggdec i (o ++ ".temp.wav")).returncode = 0
    · rw [if_pos hrc] at hev
      exact Or.inl (hmp3 _ _ hev p hp)
    · rw [if_neg hrc] at hev
      simp at hev
      subst hev
      simp [writeTargets] at hp
  case false =>
  cases h2 : (strStartsWith (env.fileType i).stdout "ISO Media, MPEG v4 system, 3GPP"
      || strStartsWith (env.fileType i).stdout "MPEG ADTS, AAC"
      || strStartsWith (env.fileType i).stdout "ISO Media, Apple iTunes ALAC/AAC-LC"
      || strStartsWith (env.fileType i).stdout "ISO Media, MP4 v2")
  case true =>
    rw [convert_audio_mp4 env i o h0 h1 h2] at hev
    rcases List.mem_cons.mp hev with rfl | hev
    · simp [writeTargets] at hp
    rcases List.mem_cons.mp hev with rfl | hev
    · simp [writeTargets] at hp
      exact Or.inr hp
    by_cases hrc : (env.ffmpeg i (o ++ ".temp.wav")).returncode = 0
    · rw [if_pos hrc] at hev
      exact Or.inl (hmp3 _ _ hev p hp)
    · rw [if_neg hrc] at hev
      simp at hev
      subst hev
      simp [writeTargets] at hp
  case false =>
  cases h3 : strStartsWith (env.fileType i).stdout "MPEG ADTS, layer III"
  case true =>
    rw [convert_audio_mp3copy env i o h0 h1 h2 h3] at hev
    simp at hev
    rcases hev with rfl | rfl | rfl <;> simp [writeTargets] at hp <;>
      exact Or.inl hp
  case false =>
    rw [convert_audio_skip env i o h0 h1 h2 h3] at hev
    simp at hev
    rcases hev with rfl | rfl <;> simp [writeTargets] at hp

/-- No event of `convert_audio` is a directory creation. -/
theorem convert_audio_no_mkdir (env : Env) (i o : String) :
    ∀ d, Event.mkdir d ∉ convert_audio env i o := by
  intro d hd
  have : ∀ t o2, Event.mkdir d ∉ (convert_to_mp3 env t o2).1 := by
    intro t o2 hmem
    by_cases h : (env.lame t o2).returncode = 0 <;>
      simp [convert_to_mp3, h] at hmem
  cases h0 : strStartsWith (env.fileType i).stdout "Ogg data, Opus audio"
  case true =>
    rw [convert_audio_opus env i o h0] at hd
    by_cases hrc : (env.opusdec i (o ++ ".temp.wav")).returncode = 0 <;>
      simp [hrc] at hd <;> exact this _ _ hd
  case false =>
  cases h1 : strStartsWith (env.fileType i).stdout "Ogg data, Vorbis audio"
  case true =>
    rw [convert_audio_vorbis env i o h0 h1] at hd
    by_cases hrc : (env.oggdec i (o ++ ".temp.wav")).returncode = 0 <;>
      simp [hrc] at hd <;> exact this _ _ hd
  case false =>
  cases h2 : (strStartsWith (env.fileType i).stdout "ISO Media, MPEG v4 system, 3GPP"
      || strStartsWith (env.fileType i).stdout "MPEG ADTS, AAC"
      || strStartsWith (env.fileType i).stdout "ISO Media, Apple iTunes ALAC/AAC-LC"
      || strStartsWith (env.fileType i).stdout "ISO Media, MP4 v2")
  case true =>
    rw [convert_audio_mp4 env i o h0 h1 h2] at hd
    by_cases hrc : (env.ffmpeg i (o ++ ".temp.wav")).returncode = 0 <;>
      simp [hrc] at hd <;> exact this _ _ hd
  case false =>
  cases h3 : strStartsWith (env.fileType i).stdout "MPEG ADTS, layer III"
  case true =>
    rw [convert_audio_mp3copy env i o h0 h1 h2 h3] at hd
    simp at hd
  case false =>
    rw [convert_audio_skip env i o h0 h1 h2 h3] at hd
    simp at hd

/-- Every write of the main-loop body for one entry targets the derived
output path of that entry or its intermediate path. -/
theorem processEntry_writes (env : Env) (folder mp3f : String) (e : DirEntry) :
    ∀ ev ∈ processEntry env folder mp3f e, ∀ p ∈ writeTargets ev,
      p = path_join mp3f ((splitext e.name).1 ++ ".mp3") ∨
      p = path_join mp3f ((splitext e.name).1 ++ ".mp3") ++ ".temp.wav" := by
  intro ev hev p hp
  simp only [processEntry] at hev
  split at hev
  · split at hev
    · exact convert_audio_writes env _ _ ev hev p hp
    · simp at hev
      subst hev
      simp [writeTargets] at hp
  · simp at hev

/-- No event of the main-loop body for one entry is a directory creation. -/
theorem processEntry_no_mkdir (env : Env) (folder mp3f : String) (e : DirEntry) :
    ∀ d, Event.mkdir d ∉ processEntry env folder mp3f e := by
  intro d hd
  simp only [processEntry] at hd
  split at hd
  · split at hd
    · exact convert_audio_no_mkdir env _ _ d hd
    · simp at hd
  · simp at hd

/-- C7: output files are written only under `folder/converted_to_mp3/`: the
output directory is created exactly when absent (and only this directory is
ever created), every path written during the run is the base name of some
listed entry with `.mp3` substituted, joined under the output directory, or that path
with the fixed suffix `.temp.wav` appended. -/
theorem claim_C7 (env : Env) (isDir : String → Bool) (folder : String)
    (entries : List DirEntry) :
    (Event.mkdir (path_join folder "converted_to_mp3") ∈
        main_events env isDir folder entries ↔
      isDir (path_join folder "converted_to_mp3") = false) ∧
    (∀ d, Event.mkdir d ∈ main_events env isDir folder entries →
      d = path_join folder "converted_to_mp3") ∧
    (∀ ev ∈ main_events env isDir folder entries, ∀ p ∈ writeTargets ev,
      ∃ e ∈ entries,
        p = path_join (path_join folder "converted_to_mp3")
              ((splitext e.name).1 ++ ".mp3") ∨
        p = path_join (path_join folder "converted_to_mp3")
              ((splitext e.name).1 ++ ".mp3") ++ ".temp.wav") := by
  have hno : ∀ d, Event.mkdir d ∉ entries.flatMap
      (processEntry env folder (path_join folder "converted_to_mp3")) := by
    intro d hd
    rw [List.mem_flatMap] at hd
    obtain ⟨e, -, hd⟩ := hd
    exact processEntry_no_mkdir env folder _ e d hd
  refine ⟨?_, ?_, ?_⟩
  · cases hdir : isDir (path_join folder "converted_to_mp3")
    case false =>
      simp [main_events, hdir]
    case true =>
      simp [main_events, hdir]
      intro e he hd
      exact processEntry_no_mkdir env folder _ e _ hd
  · intro d hd
    simp only [main_events, List.mem_cons, List.mem_append] at hd
    rcases hd with h | h | h
    · simp at h
    · split at h
      · simp at h
      · simp at h
        exact h
    · exact absurd h (hno d)
  · intro ev hev p hp
    simp only [main_events, List.mem_cons, List.mem_append] at hev
    rcases hev with rfl | h | h
    · simp [writeTargets] at hp
    · split at h
      · simp at h
      · simp at h
        subst h
        simp [writeTargets] at hp
    · rw [List.mem_flatMap] at h
      obtain ⟨e, he, hmem⟩ := h
      exact ⟨e, he, processEntry_writes env folder _ e ev hmem p hp⟩

/-- Witness for C7: in the demo run the output directory is created, and
the path `lame` wrote `b.mp3` to is the derived output path of some listed
entry. -/
theorem claim_C7_witness :
    Event.mkdir (path_join "/in" "converted_to_mp3") ∈
      main_events demoEnv (fun _ => false) "/in" demoEntries ∧
    (∃ e ∈ demoEntries,
      "/in/converted_to_mp3/b.mp3" = path_join (path_join "/in" "converted_to_mp3")
          ((splitext e.name).1 ++ ".mp3") ∨
      "/in/converted_to_mp3/b.mp3" = path_join (path_join "/in" "converted_to_mp3")
          ((splitext e.name).1 ++ ".mp3") ++ ".temp.wav") := by
  have h := claim_C7 demoEnv (fun _ => false) "/in" demoEntries
  exact ⟨h.1.mpr rfl,
    h.2.2 (Event.runLame "/in/converted_to_mp3/b.mp3.temp.wav" "/in/converted_to_mp3/b.mp3" 0)
      (by decide) "/in/converted_to_mp3/b.mp3" (by decide)⟩

/-- C9: two visible regular entries with allow-listed extensions and the
same base name derive the identical output path and identical intermediate
path; when both are processed (here both sniff as MP3 and are copied
through), the entry processed later overwrites the output produced for the
earlier one, with no conflict detection: the final content at the shared
output path is the content of the later input. -/
theorem claim_C9 (env : Env) (isDir : String → Bool) (fs : FS) (folder : String)
    (e1 e2 : DirEntry)
    (hbase : (splitext e1.name).1 = (splitext e2.name).1)
    (hvis1 : ((!strStartsWith e1.name ".") && e1.isRegularFile) = true)
    (hvis2 : ((!strStartsWith e2.name ".") && e2.isRegularFile) = true)
    (hext1 : allowedExtensions.contains (splitext e1.name).2 = true)
    (hext2 : allowedExtensions.contains (splitext e2.name).2 = true)
    (hmp31 : strStartsWith (env.fileType (path_join folder e1.name)).stdout
      "MPEG ADTS, layer III" = true)
    (hmp32 : strStartsWith (env.fileType (path_join folder e2.name)).stdout
      "MPEG ADTS, layer III" = true)
    (hne : path_join folder e2.name ≠
      path_join (path_join folder "converted_to_mp3") ((splitext e2.name).1 ++ ".mp3")) :
    path_join (path_join folder "converted_to_mp3") ((splitext e1.name).1 ++ ".mp3") =
      path_join (path_join folder "converted_to_mp3") ((splitext e2.name).1 ++ ".mp3") ∧
    path_join (path_join folder "converted_to_mp3") ((splitext e1.name).1 ++ ".mp3")
        ++ ".temp.wav" =
      path_join (path_join folder "converted_to_mp3") ((splitext e2.name).1 ++ ".mp3")
        ++ ".temp.wav" ∧
    runFS env fs (main_events env isDir folder [e1, e2])
        (path_join (path_join folder "converted_to_mp3") ((splitext e1.name).1 ++ ".mp3"))
      = fs (path_join folder e2.name) := by
  obtain ⟨g01, g11, g21⟩ := mp3_sig_excludes hmp31
  obtain ⟨g02, g12, g22⟩ := mp3_sig_excludes hmp32
  have hout : path_join (path_join folder "converted_to_mp3")
        ((splitext e1.name).1 ++ ".mp3") =
      path_join (path_join folder "converted_to_mp3")
        ((splitext e2.name).1 ++ ".mp3") := by
    rw [hbase]
  refine ⟨hout, by rw [hout], ?_⟩
  rw [hout]
  simp only [main_events, List.flatMap_cons, List.flatMap_nil, List.append_nil]
  simp only [processEntry, hvis1, hvis2, hext1, hext2, if_true]
  rw [hbase]
  rw [convert_audio_mp3copy env _ _ g01 g11 g21 hmp31,
      convert_audio_mp3copy env _ _ g02 g12 g22 hmp32]
  cases hdir : isDir (path_join folder "converted_to_mp3") <;>
    simp [hdir, runFS, applyEvent, hne]

/-- Witness for C9: `song.ogg` and `song.m4a` collide on
`converted_to_mp3/song.mp3`; after the run it holds the bytes of the
second file. -/
theorem claim_C9_witness :
    runFS demoEnv demoFS
      (main_events demoEnv (fun _ => false) "/in" [⟨"song.ogg", true⟩, ⟨"song.m4a", true⟩])
      (path_join (path_join "/in" "converted_to_mp3") ((splitext "song.ogg").1 ++ ".mp3"))
      = some "SONG-M4A" := by
  have h := claim_C9 demoEnv (fun _ => false) demoFS "/in" ⟨"song.ogg", true⟩
    ⟨"song.m4a", true⟩ (by decide) (by decide) (by decide) (by decide) (by decide)
    (by decide) (by decide) (by decide)
  exact h.2.2.trans (by decide)
